import Mathlib

/-!
# Shallow embedding of `src/Source/charon/payloads/transform_attribute.c`

An object of type `private_transform_attribute_t` represents an IKEv2
TRANSFORM attribute.  The C struct holds:

* `attribute_format : bool` — TRUE means the value is stored inline in the
  16-bit `attribute_length_or_value` field (TV form), FALSE means it is
  stored in the out-of-line `attribute_value` chunk (TLV form);
* `attribute_type : u_int16_t`;
* `attribute_length_or_value : u_int16_t`;
* `attribute_value : chunk_t` (pointer + length).

`set_value` copies short values (`len <= 2`) byte-wise with `memcpy` into
the in-memory representation of `attribute_length_or_value`, and `get_value`
in TV form returns a pointer view over those same two bytes.  To capture
this byte-level aliasing we model `attribute_length_or_value` as its two
in-memory bytes `lov0` (low address) and `lov1` (high address); on the
little-endian hosts this code targets, the numeric value of the field is
`lov0 + 256 * lov1` (`lovWord` below).  Numeric stores to the field write
both bytes through that encoding, so the choice of host byte order cancels
in every numeric property.

A C pointer that may be NULL is modelled as an `Option`; a non-NULL buffer
pointer carries the list of bytes it points to.  Allocation failure of
`allocator_clone_bytes` is modelled by an explicit oracle argument
`allocOk : Bool` passed to `set_value`.
-/

/-- Status codes of the C `status_t` enum used by this file. -/
inductive status_t where
  | SUCCESS : status_t
  | OUT_OF_RES : status_t
  | FAILED : status_t
deriving Repr, DecidableEq

export status_t (SUCCESS OUT_OF_RES)

/-- Payload type tags of the C `payload_type_t` enum used by this file. -/
inductive payload_type_t where
  | NO_PAYLOAD : payload_type_t
  | SECURITY_ASSOCIATION : payload_type_t
  | TRANSFORM_ATTRIBUTE : payload_type_t
deriving Repr, DecidableEq

export payload_type_t (NO_PAYLOAD TRANSFORM_ATTRIBUTE)

/-- The C `chunk_t`: a pointer plus a length.  `ptr = none` models a NULL
pointer; `ptr = some bs` models a buffer holding the bytes `bs`. -/
structure chunk_t where
  ptr : Option (List Nat)
  len : Nat
deriving Repr, DecidableEq

/-- Private data of a `transform_attribute_t` object.  `lov0` and `lov1`
are the two in-memory bytes of the `u_int16_t attribute_length_or_value`
field (low address first). -/
structure private_transform_attribute_t where
  attribute_format : Bool
  attribute_type : Nat
  lov0 : Nat
  lov1 : Nat
  attribute_value : chunk_t
deriving Repr, DecidableEq

/-- Numeric value of the `attribute_length_or_value` field on a
little-endian host. -/
def lovWord (this : private_transform_attribute_t) : Nat :=
  this.lov0 + 256 * this.lov1

/-- Field kinds of the C `encoding_type_t` enum used by the rule table. -/
inductive encoding_type_t where
  | ATTRIBUTE_FORMAT : encoding_type_t
  | ATTRIBUTE_TYPE : encoding_type_t
  | ATTRIBUTE_LENGTH_OR_VALUE : encoding_type_t
  | ATTRIBUTE_VALUE : encoding_type_t
deriving Repr, DecidableEq

/-- The field a rule's `offsetof(...)` entry designates inside
`private_transform_attribute_t`. -/
inductive field_offset where
  | attribute_format : field_offset
  | attribute_type : field_offset
  | attribute_length_or_value : field_offset
  | attribute_value : field_offset
deriving Repr, DecidableEq

/-- One entry of the C `encoding_rule_t` table: a field kind and the
struct field it addresses. -/
structure encoding_rule_t where
  type : encoding_type_t
  offset : field_offset
deriving Repr, DecidableEq

/-- The static table `transform_attribute_encodings[]`:
format flag, attribute type, length-or-value word, value buffer. -/
def transform_attribute_encodings : List encoding_rule_t :=
  [⟨encoding_type_t.ATTRIBUTE_FORMAT, field_offset.attribute_format⟩,
   ⟨encoding_type_t.ATTRIBUTE_TYPE, field_offset.attribute_type⟩,
   ⟨encoding_type_t.ATTRIBUTE_LENGTH_OR_VALUE, field_offset.attribute_length_or_value⟩,
   ⟨encoding_type_t.ATTRIBUTE_VALUE, field_offset.attribute_value⟩]

/-- `get_encoding_rules`: writes the static table and its element count
through the out-parameters and returns SUCCESS.  Modelled as returning
the triple. -/
def get_encoding_rules (this : private_transform_attribute_t) :
    status_t × List encoding_rule_t × Nat :=
  (SUCCESS, transform_attribute_encodings, transform_attribute_encodings.length)

/-- `get_type`: always returns `TRANSFORM_ATTRIBUTE`. -/
def get_type (this : private_transform_attribute_t) : payload_type_t :=
  TRANSFORM_ATTRIBUTE

/-- `get_next_type`: always returns `NO_PAYLOAD`. -/
def get_next_type (this : private_transform_attribute_t) : payload_type_t :=
  NO_PAYLOAD

/-- `get_length`: 4 bytes in TV form, `attribute_length_or_value + 4`
bytes in TLV form. -/
def get_length (this : private_transform_attribute_t) : Nat :=
  if this.attribute_format = true then 4
  else lovWord this + 4

/-- `destroy` frees the out-of-line value buffer exactly when its pointer
is non-NULL (then frees the instance itself).  This observable records
whether the value-buffer `allocator_free` call is performed. -/
def destroy_frees_value (this : private_transform_attribute_t) : Bool :=
  this.attribute_value.ptr.isSome

/-- `set_value`:
1. if `attribute_value.ptr != NULL`, free the existing buffer and zero
   the chunk (pointer NULL, length 0);
2. if `value.len > 2`, clone the input bytes (`allocOk` is the allocation
   oracle: on failure return `OUT_OF_RES` with the state as after step 1),
   store the clone, set `attribute_length_or_value = value.len` (numeric
   store, truncated to 16 bits) and `attribute_format = FALSE`;
3. otherwise `memcpy` the first `value.len` bytes of the input over the
   in-memory bytes of `attribute_length_or_value`, leaving the remaining
   byte(s) and all other fields unchanged. -/
def set_value (this : private_transform_attribute_t) (value : chunk_t)
    (allocOk : Bool) : status_t × private_transform_attribute_t :=
  let this :=
    if this.attribute_value.ptr ≠ none then
      { this with attribute_value := ⟨none, 0⟩ }
    else this
  if value.len > 2 then
    if allocOk then
      let cloned := (value.ptr.getD []).take value.len
      (SUCCESS,
        { this with
            attribute_value := ⟨some cloned, value.len⟩
            lov0 := value.len % 256
            lov1 := value.len / 256 % 256
            attribute_format := false })
    else
      (OUT_OF_RES, this)
  else
    let src := (value.ptr.getD []).take value.len
    (SUCCESS,
      { this with
          lov0 := src.getD 0 this.lov0
          lov1 := src.getD 1 this.lov1 })

/-- `get_value`: in TLV form, a borrowed view over the out-of-line chunk;
in TV form, a 2-byte view over the in-memory bytes of
`attribute_length_or_value`. -/
def get_value (this : private_transform_attribute_t) : chunk_t :=
  if this.attribute_format = false then
    ⟨this.attribute_value.ptr, this.attribute_value.len⟩
  else
    ⟨some [this.lov0, this.lov1], 2⟩

/-- `set_attribute_type`: stores `type & 0x7FFF` and returns SUCCESS.
The C parameter is a `u_int16_t`, so the incoming argument is truncated
to 16 bits at the call boundary. -/
def set_attribute_type (this : private_transform_attribute_t) (type : Nat) :
    status_t × private_transform_attribute_t :=
  (SUCCESS, { this with attribute_type := (type % 65536) &&& 0x7FFF })

/-- `get_attribute_type`: returns the stored attribute type. -/
def get_attribute_type (this : private_transform_attribute_t) : Nat :=
  this.attribute_type

/-- `transform_attribute_create`: default field values — TV form, type 0,
length-or-value 0, no out-of-line buffer. -/
def transform_attribute_create : private_transform_attribute_t :=
  { attribute_format := true
    attribute_type := 0
    lov0 := 0
    lov1 := 0
    attribute_value := ⟨none, 0⟩ }

/-- States reachable from a freshly created attribute through any sequence
of `set_value` (with either allocation outcome) and `set_attribute_type`
calls. -/
inductive Reachable : private_transform_attribute_t → Prop where
  | create : Reachable transform_attribute_create
  | step_set_value (s : private_transform_attribute_t) (v : chunk_t)
      (ok : Bool) : Reachable s → Reachable (set_value s v ok).2
  | step_set_attribute_type (s : private_transform_attribute_t) (t : Nat) :
      Reachable s → Reachable (set_attribute_type s t).2

/-!
## Claim theorems
-/

/-- C1: the threshold law fails on the code: starting from a TLV-form
attribute (after `set_value` of a 3-byte chunk), `set_value` of a 1-byte
chunk returns SUCCESS but leaves `attribute_format = FALSE`, because the
short-value branch never writes the format flag.  So the attribute is not
in TV form although the input length is ≤ 2. -/
theorem set_value_short_after_tlv_not_tv :
    ((set_value (set_value transform_attribute_create ⟨some [1, 2, 3], 3⟩ true).2
        ⟨some [5], 1⟩ true).1 = SUCCESS) ∧
    ((set_value (set_value transform_attribute_create ⟨some [1, 2, 3], 3⟩ true).2
        ⟨some [5], 1⟩ true).2.attribute_format = false) := by
  decide

/-- C2: the claimed invariant fails on the code: the state reached by
`create`; `set_value([1,2,3])`; `set_value([7])` is reachable, has an
empty/absent out-of-line buffer (NULL pointer, zero length), and yet
`attribute_format = FALSE`. -/
theorem reachable_state_violates_format_invariant :
    Reachable ((set_value (set_value transform_attribute_create
        ⟨some [1, 2, 3], 3⟩ true).2 ⟨some [7], 1⟩ true).2) ∧
    ((set_value (set_value transform_attribute_create
        ⟨some [1, 2, 3], 3⟩ true).2 ⟨some [7], 1⟩ true).2.attribute_format = false) ∧
    ((set_value (set_value transform_attribute_create
        ⟨some [1, 2, 3], 3⟩ true).2 ⟨some [7], 1⟩ true).2.attribute_value.ptr = none) ∧
    ((set_value (set_value transform_attribute_create
        ⟨some [1, 2, 3], 3⟩ true).2 ⟨some [7], 1⟩ true).2.attribute_value.len = 0) :=
  ⟨Reachable.step_set_value _ _ _
      (Reachable.step_set_value _ _ _ Reachable.create),
   by decide, by decide, by decide⟩

/-- C3 counterexample: `set_value` of a 4-byte chunk with a failing clone,
on an attribute previously put in TLV form, returns OUT_OF_RES but leaves
`attribute_format = FALSE` — not the claimed TV state with value 0. -/
theorem set_value_alloc_fail_not_tv_zero :
    ((set_value (set_value transform_attribute_create ⟨some [1, 2, 3], 3⟩ true).2
        ⟨some [9, 9, 9, 9], 4⟩ false).1 = OUT_OF_RES) ∧
    ((set_value (set_value transform_attribute_create ⟨some [1, 2, 3], 3⟩ true).2
        ⟨some [9, 9, 9, 9], 4⟩ false).2.attribute_format = false) := by
  decide

/-- C3 (amended): when `set_value` with `value.len > 2` hits a clone
failure it returns OUT_OF_RES and holds no out-of-line buffer (the old one
was already freed and its pointer set to NULL), while `attribute_format`,
`attribute_length_or_value` and `attribute_type` keep their prior values;
in particular a freshly created attribute is left in the TV state with
value 0. -/
theorem set_value_alloc_fail_state (s : private_transform_attribute_t)
    (v : chunk_t) (h : v.len > 2) :
    (set_value s v false).1 = OUT_OF_RES ∧
    (set_value s v false).2.attribute_value.ptr = none ∧
    (set_value s v false).2.attribute_format = s.attribute_format ∧
    (set_value s v false).2.lov0 = s.lov0 ∧
    (set_value s v false).2.lov1 = s.lov1 ∧
    (set_value s v false).2.attribute_type = s.attribute_type := by
  unfold set_value
  rcases hp : s.attribute_value.ptr with _ | bs <;>
    simp [hp, h]

/-- C3 witness: at a freshly created attribute and the 3-byte input
`[1,2,3]`, the amended statement holds with its hypothesis discharged. -/
theorem set_value_alloc_fail_state_witness :
    (set_value transform_attribute_create ⟨some [1, 2, 3], 3⟩ false).1 = OUT_OF_RES ∧
    (set_value transform_attribute_create ⟨some [1, 2, 3], 3⟩ false).2.attribute_value.ptr = none ∧
    (set_value transform_attribute_create ⟨some [1, 2, 3], 3⟩ false).2.attribute_format
      = transform_attribute_create.attribute_format ∧
    (set_value transform_attribute_create ⟨some [1, 2, 3], 3⟩ false).2.lov0
      = transform_attribute_create.lov0 ∧
    (set_value transform_attribute_create ⟨some [1, 2, 3], 3⟩ false).2.lov1
      = transform_attribute_create.lov1 ∧
    (set_value transform_attribute_create ⟨some [1, 2, 3], 3⟩ false).2.attribute_type
      = transform_attribute_create.attribute_type :=
  set_value_alloc_fail_state transform_attribute_create ⟨some [1, 2, 3], 3⟩ (by decide)

/-- C4: for every 16-bit input `t`, `set_attribute_type` returns SUCCESS,
the stored attribute type is at most 32767, and `get_attribute_type` then
returns exactly `t &&& 0x7FFF`. -/
theorem set_attribute_type_masks (s : private_transform_attribute_t)
    (t : Nat) (h : t < 65536) :
    (set_attribute_type s t).1 = SUCCESS ∧
    (set_attribute_type s t).2.attribute_type ≤ 32767 ∧
    get_attribute_type (set_attribute_type s t).2 = t &&& 0x7FFF := by
  refine ⟨rfl, ?_, ?_⟩
  · exact le_trans Nat.and_le_right (by norm_num)
  · simp [set_attribute_type, get_attribute_type, Nat.mod_eq_of_lt h]

/-- C4 witness: at `t = 0x8005` on a fresh attribute, `set_attribute_type`
succeeds and the stored/readable type is `0x8005 &&& 0x7FFF` (= 5). -/
theorem set_attribute_type_masks_witness :
    (set_attribute_type transform_attribute_create 0x8005).1 = SUCCESS ∧
    (set_attribute_type transform_attribute_create 0x8005).2.attribute_type ≤ 32767 ∧
    get_attribute_type (set_attribute_type transform_attribute_create 0x8005).2
      = 0x8005 &&& 0x7FFF :=
  set_attribute_type_masks transform_attribute_create 0x8005 (by decide)

/-- C5: in every reachable state, `get_length` returns 4 in TV form and
`4 + attribute_length_or_value` in TLV form. -/
theorem get_length_reachable_spec (s : private_transform_attribute_t)
    (h : Reachable s) :
    (s.attribute_format = true → get_length s = 4) ∧
    (s.attribute_format = false → get_length s = 4 + lovWord s) := by
  constructor <;> intro hf <;> simp [get_length, hf, Nat.add_comm]

/-- C5 witness: the freshly created attribute is reachable, is in TV form,
and its wire length is 4. -/
theorem get_length_reachable_spec_witness :
    get_length transform_attribute_create = 4 :=
  (get_length_reachable_spec transform_attribute_create Reachable.create).1 rfl

/-- C6: on a fresh attribute, `set_value([0xAA, 0xBB])` succeeds, leaves TV
form, `get_value` returns a 2-byte view with bytes `[0xAA, 0xBB]`, and
`get_length` returns 4. -/
theorem fresh_set_value_two_bytes :
    ((set_value transform_attribute_create ⟨some [0xAA, 0xBB], 2⟩ true).1 = SUCCESS) ∧
    ((set_value transform_attribute_create ⟨some [0xAA, 0xBB], 2⟩ true).2.attribute_format = true) ∧
    (get_value (set_value transform_attribute_create ⟨some [0xAA, 0xBB], 2⟩ true).2
      = ⟨some [0xAA, 0xBB], 2⟩) ∧
    (get_length (set_value transform_attribute_create ⟨some [0xAA, 0xBB], 2⟩ true).2 = 4) := by
  decide

/-- C7: `destroy` frees the out-of-line buffer iff its pointer is non-NULL,
and after any `set_value` call that does not install a fresh clone (short
input, or clone failure) the pointer is NULL — the prior buffer was already
released and NULLed by `set_value` — so `destroy` performs no buffer free
and cannot double-free. -/
theorem destroy_frees_iff_held (s : private_transform_attribute_t)
    (v : chunk_t) (ok : Bool) (h : v.len ≤ 2 ∨ ok = false) :
    (destroy_frees_value s = true ↔ s.attribute_value.ptr ≠ none) ∧
    destroy_frees_value (set_value s v ok).2 = false := by
  constructor
  · simp [destroy_frees_value, Option.isSome_iff_ne_none]
  · have hptr : (set_value s v ok).2.attribute_value.ptr = none := by
      unfold set_value
      rcases hp : s.attribute_value.ptr with _ | bs <;>
        rcases h with h | h <;>
        rcases Nat.lt_or_ge 2 v.len with hl | hl <;>
        simp_all [Nat.not_lt.mpr]
    simp [destroy_frees_value, hptr]

/-- C7 witness: after putting an attribute into TLV form and then calling
`set_value` with a 1-byte chunk (which frees and NULLs the buffer),
`destroy` performs no buffer free. -/
theorem destroy_frees_iff_held_witness :
    destroy_frees_value (set_value
      (set_value transform_attribute_create ⟨some [1, 2, 3], 3⟩ true).2
      ⟨some [4], 1⟩ true).2 = false :=
  (destroy_frees_iff_held
    (set_value transform_attribute_create ⟨some [1, 2, 3], 3⟩ true).2
    ⟨some [4], 1⟩ true (Or.inl (by decide))).2

/-- C8: in every state, `get_encoding_rules` returns the one static table
with exactly 4 rules, whose kinds appear in wire order: format flag,
attribute type, length-or-value word, value buffer. -/
theorem get_encoding_rules_wire_order (s : private_transform_attribute_t) :
    get_encoding_rules s = (SUCCESS, transform_attribute_encodings, 4) ∧
    transform_attribute_encodings.map encoding_rule_t.type =
      [encoding_type_t.ATTRIBUTE_FORMAT, encoding_type_t.ATTRIBUTE_TYPE,
       encoding_type_t.ATTRIBUTE_LENGTH_OR_VALUE, encoding_type_t.ATTRIBUTE_VALUE] :=
  ⟨rfl, rfl⟩

/-- C9: in every state, `get_type` returns the TRANSFORM_ATTRIBUTE tag and
`get_next_type` returns the NO_PAYLOAD sentinel; both are constants
independent of any mutation. -/
theorem get_type_next_type_constant (s : private_transform_attribute_t) :
    get_type s = TRANSFORM_ATTRIBUTE ∧ get_next_type s = NO_PAYLOAD :=
  ⟨rfl, rfl⟩

/-- C10: a short `set_value` overwrites only the first `value.len` bytes of
the inline 16-bit field: a 1-byte input replaces `lov0` and preserves
`lov1`, a 0-byte input preserves both; and concretely, after
`set_value([0xAA, 0xBB])` then `set_value([0xCC])` on a fresh attribute,
`get_value` returns the bytes `[0xCC, 0xBB]`, not `[0xCC, 0]`. -/
theorem set_value_partial_overwrite (s : private_transform_attribute_t)
    (c : Nat) (ok₀ ok₁ : Bool) :
    ((set_value s ⟨some [c], 1⟩ ok₁).2.lov0 = c ∧
     (set_value s ⟨some [c], 1⟩ ok₁).2.lov1 = s.lov1) ∧
    ((set_value s ⟨none, 0⟩ ok₀).2.lov0 = s.lov0 ∧
     (set_value s ⟨none, 0⟩ ok₀).2.lov1 = s.lov1) ∧
    get_value (set_value (set_value transform_attribute_create
        ⟨some [0xAA, 0xBB], 2⟩ true).2 ⟨some [0xCC], 1⟩ true).2 =
      ⟨some [0xCC, 0xBB], 2⟩ := by
  refine ⟨?_, ?_, by decide⟩ <;>
    · unfold set_value
      rcases hp : s.attribute_value.ptr with _ | bs <;> simp [hp]
